import Mathlib

/-!
Verification of the weather cache-or-fetch path and the outfit-suggestion
entrypoint of the LazYdrobe backend (`main.py`).

The shallow embedding below translates the relevant Python functions into
Lean.  The persisted weather table is a list of `WeatherRow`; calendar days
are natural numbers (`Date`); SQL queries become list filters, sorts and
takes; the third-party provider's HTTP response is a `ProviderResponse`
value passed in as an argument; raising `HTTPException` becomes returning
an error outcome; a fallible commit is modelled by a `commitOk : Bool`
argument (`true` = the commit succeeds, `false` = it raises and the
transaction is rolled back).
-/

namespace LazYdrobe

/-- Calendar day (no time component), as an abstract day number. -/
abbrev Date := Nat

/-- One persisted row of the weather table (`models.WeatherData` as read and
written by `main.py`).  Numeric weather fields are rationals standing for the
JSON numbers the code merely passes through. -/
structure WeatherRow where
  date : Date
  location : String
  temp_max : ℚ
  temp_min : ℚ
  feels_max : ℚ
  feels_min : ℚ
  wind_speed : ℚ
  humidity : ℚ
  precipitation : ℚ
  precipitation_probability : ℚ
  special_condition : String
  weather_icon : String
  user_id : Option Int
deriving Repr, DecidableEq

/-- The weather dictionary built by `fetch_weather_data_from_db` /
`fetch_weather_data` and returned to callers: the same fields as a row but
with no `user_id` key. -/
structure WeatherEntry where
  date : Date
  location : String
  temp_max : ℚ
  temp_min : ℚ
  feels_max : ℚ
  feels_min : ℚ
  wind_speed : ℚ
  humidity : ℚ
  precipitation : ℚ
  precipitation_probability : ℚ
  special_condition : String
  weather_icon : String
deriving Repr, DecidableEq

/-- Projection of a stored row to the dictionary shape returned to callers
(the loop body of `fetch_weather_data_from_db`, which copies every field
except `user_id`). -/
def WeatherRow.toEntry (r : WeatherRow) : WeatherEntry :=
  { date := r.date
    location := r.location
    temp_max := r.temp_max
    temp_min := r.temp_min
    feels_max := r.feels_max
    feels_min := r.feels_min
    wind_speed := r.wind_speed
    humidity := r.humidity
    precipitation := r.precipitation
    precipitation_probability := r.precipitation_probability
    special_condition := r.special_condition
    weather_icon := r.weather_icon }

/-- Python truthiness of the `user_id: Optional[int]` parameter: the filter in
`fetch_weather_data_from_db` is applied only under `if user_id:`, so `None`
and `0` both skip the owner filter. -/
def userIdTruthy : Option Int → Bool
  | none => false
  | some n => n != 0

/-- The WHERE clause of the cache-read query: `location == L`, `date >= today`
and, only when the `user_id` argument is truthy, `user_id == user_id`. -/
def rowMatches (location : String) (today : Date) (uid : Option Int)
    (r : WeatherRow) : Bool :=
  r.location == location && today ≤ r.date &&
    (if userIdTruthy uid then r.user_id == uid else true)

/-- The `ORDER BY date` comparison on stored rows. -/
def dateLE (a b : WeatherRow) : Prop := a.date ≤ b.date

instance : DecidableRel dateLE := fun a b => Nat.decLe a.date b.date

instance : IsTotal WeatherRow dateLE := ⟨fun a b => Nat.le_total a.date b.date⟩

instance : IsTrans WeatherRow dateLE := ⟨fun _ _ _ h h' => Nat.le_trans h h'⟩

/-- The SELECT of `fetch_weather_data_from_db`: filter by location / date /
optional owner, order by date, `LIMIT 5`. -/
def dbQuery (store : List WeatherRow) (today : Date) (location : String)
    (uid : Option Int) : List WeatherRow :=
  (List.insertionSort dateLE (store.filter (rowMatches location today uid))).take 5

/-- Embedding of `fetch_weather_data_from_db(location, user_id=None)`: run the limited
query, project rows to entry dictionaries, and return them only when exactly
5 were obtained — otherwise return the empty list.  (The `except` branch of
the Python function also returns `[]`, so a read failure coincides with the
miss result and is not modelled separately.) -/
def fetch_weather_data_from_db (store : List WeatherRow) (today : Date)
    (location : String) (uid : Option Int := none) : List WeatherEntry :=
  let weather_data := (dbQuery store today location uid).map WeatherRow.toEntry
  if weather_data.length = 5 then weather_data else []

/-- One day record of the provider's JSON `days` array.  `datetime` is
required (the code indexes `day['datetime']` directly); every other field is
read with `.get` and a default, so it is optional here. -/
structure ProviderDay where
  datetime : Date
  tempmax : Option ℚ
  tempmin : Option ℚ
  feelslikemax : Option ℚ
  feelslikemin : Option ℚ
  windspeed : Option ℚ
  humidity : Option ℚ
  precip : Option ℚ
  precipprob : Option ℚ
  conditions : Option String
  icon : Option String
deriving Repr, DecidableEq

/-- The provider's HTTP response: a status code, the raw body text (used as
the error detail on a non-200 status) and the parsed `days` array; `none`
models a JSON body with no `days` key. -/
structure ProviderResponse where
  status_code : Nat
  text : String
  days : Option (List ProviderDay)
deriving Repr, DecidableEq

/-- An `HTTPException(status_code, detail)` raised by the code. -/
structure HttpError where
  status_code : Nat
  detail : String
deriving Repr, DecidableEq

/-- Result of `fetch_weather_data`: either the list of entry dictionaries or
a raised `HTTPException`. -/
inductive FetchOutcome where
  | ok (entries : List WeatherEntry)
  | error (e : HttpError)
deriving Repr, DecidableEq

/-- Whether a fetch outcome is a raised exception. -/
def FetchOutcome.isError : FetchOutcome → Bool
  | .ok _ => false
  | .error _ => true

/-- The loop body of `fetch_weather_data`: one provider day record becomes one
entry dictionary; missing numeric fields default to `0.0`, a missing
`conditions` label defaults to `"Unknown"`, a missing `icon` defaults to
`""`. -/
def transformDay (location : String) (day : ProviderDay) : WeatherEntry :=
  { date := day.datetime
    location := location
    temp_max := day.tempmax.getD 0
    temp_min := day.tempmin.getD 0
    feels_max := day.feelslikemax.getD 0
    feels_min := day.feelslikemin.getD 0
    wind_speed := day.windspeed.getD 0
    humidity := day.humidity.getD 0
    precipitation := day.precip.getD 0
    precipitation_probability := day.precipprob.getD 0
    special_condition := day.conditions.getD "Unknown"
    weather_icon := day.icon.getD "" }

/-- Embedding of `fetch_weather_data(api_key, location)`: first re-read the cache with no
owner filter; a non-empty cache result is returned as is.  Otherwise the
provider is called (the first component of the result counts provider
invocations): a non-200 status raises with that status and the body text; a
missing or empty `days` array raises 500; otherwise every day record is
transformed into an entry. -/
def fetch_weather_data (store : List WeatherRow) (today : Date)
    (location : String) (resp : ProviderResponse) : Nat × FetchOutcome :=
  let weather_entries := fetch_weather_data_from_db store today location
  if ¬ weather_entries.isEmpty then
    (0, .ok weather_entries)
  else if resp.status_code ≠ 200 then
    (1, .error ⟨resp.status_code, resp.text⟩)
  else
    match resp.days with
    | none => (1, .error ⟨500, "No weather data available."⟩)
    | some [] => (1, .error ⟨500, "No weather data available."⟩)
    | some days => (1, .ok (days.map (transformDay location)))

/-- The upsert match of `insert_weather_data_to_db`:
`filter_by(date=entry['date'], location=entry['location'], user_id=user_id)`
(with `user_id=None` compiling to `IS NULL`, i.e. exact `Option` equality). -/
def entryKeyMatches (e : WeatherEntry) (uid : Option Int) (r : WeatherRow) : Bool :=
  r.date == e.date && r.location == e.location && r.user_id == uid

/-- The update branch of the upsert: `setattr` of every key of the entry
dictionary onto the existing record.  The entry has no `user_id` key, so the
record's `user_id` is left unchanged. -/
def applyEntry (e : WeatherEntry) (r : WeatherRow) : WeatherRow :=
  { date := e.date
    location := e.location
    temp_max := e.temp_max
    temp_min := e.temp_min
    feels_max := e.feels_max
    feels_min := e.feels_min
    wind_speed := e.wind_speed
    humidity := e.humidity
    precipitation := e.precipitation
    precipitation_probability := e.precipitation_probability
    special_condition := e.special_condition
    weather_icon := e.weather_icon
    user_id := r.user_id }

/-- The insert branch of the upsert: a fresh `WeatherData` row with every
field from the entry and `user_id` set to the call's `user_id` argument. -/
def WeatherEntry.toRow (e : WeatherEntry) (uid : Option Int) : WeatherRow :=
  { date := e.date
    location := e.location
    temp_max := e.temp_max
    temp_min := e.temp_min
    feels_max := e.feels_max
    feels_min := e.feels_min
    wind_speed := e.wind_speed
    humidity := e.humidity
    precipitation := e.precipitation
    precipitation_probability := e.precipitation_probability
    special_condition := e.special_condition
    weather_icon := e.weather_icon
    user_id := uid }

/-- Apply `f` to the first element satisfying `p` (the `.first()` row of the
upsert query), leaving every other row in place. -/
def updateFirst (p : WeatherRow → Bool) (f : WeatherRow → WeatherRow) :
    List WeatherRow → List WeatherRow
  | [] => []
  | r :: rs => if p r then f r :: rs else r :: updateFirst p f rs

/-- One iteration of the upsert loop: if a row matches the (date, location,
user_id) key, overwrite its fields in place; otherwise `db.add` a new row
(appended, visible to the following iterations of the loop). -/
def upsertEntry (uid : Option Int) (store : List WeatherRow)
    (e : WeatherEntry) : List WeatherRow :=
  if store.any (entryKeyMatches e uid) then
    updateFirst (entryKeyMatches e uid) (applyEntry e) store
  else
    store ++ [e.toRow uid]

/-- The whole upsert loop of `insert_weather_data_to_db`, assuming the final
commit succeeds. -/
def insertCommitted (data : List WeatherEntry) (uid : Option Int)
    (store : List WeatherRow) : List WeatherRow :=
  data.foldl (upsertEntry uid) store

/-- Result of `insert_weather_data_to_db`: the store after the call, or a
raised `HTTPException` together with the store as left by the rollback. -/
inductive InsertOutcome where
  | ok (store : List WeatherRow)
  | error (e : HttpError) (store : List WeatherRow)
deriving Repr, DecidableEq

/-- Embedding of `insert_weather_data_to_db(data, user_id)`: empty data returns without
touching the store; otherwise the upsert loop runs and the commit either
succeeds (`commitOk = true`) or raises, in which case the transaction is
rolled back (store unchanged) and `HTTPException(500, ...)` is raised. -/
def insert_weather_data_to_db (data : List WeatherEntry) (uid : Option Int)
    (store : List WeatherRow) (commitOk : Bool) : InsertOutcome :=
  if data.isEmpty then .ok store
  else if commitOk then .ok (insertCommitted data uid store)
  else .error ⟨500, "Failed to insert weather data into the database."⟩ store

/-- The slice of a `users` row the weather and suggestion endpoints read. -/
structure User where
  user_id : Int
  location : Option String
  gender : Option String
deriving Repr, DecidableEq

/-- Python truthiness of `user.location`: `None` and `""` are both falsy
(`if not user.location` takes the error branch). -/
def locationTruthy : Option String → Bool
  | none => false
  | some s => !s.isEmpty

/-- Result of the `/weather/` endpoint: a JSON body plus the background task
scheduled with `background_tasks.add_task(insert_weather_data_to_db,
weather_data, user_id=...)` (if any), or a raised `HTTPException`.  The task
is recorded as its arguments `(data, user_id)`. -/
inductive EndpointResult where
  | ok (body : List WeatherEntry) (task : Option (List WeatherEntry × Option Int))
  | error (e : HttpError)
deriving Repr, DecidableEq

/-- The response part of an endpoint result, with the scheduled background
task erased: what the HTTP client actually receives. -/
def EndpointResult.response : EndpointResult → EndpointResult
  | .ok body _ => .ok body none
  | .error e => .error e

/-- The background task recorded in an endpoint result, if any. -/
def EndpointResult.task : EndpointResult → Option (List WeatherEntry × Option Int)
  | .ok _ t => t
  | .error _ => none

/-- Embedding of `get_weather_data` (the `POST /weather/` handler): resolve the user (404
if absent, 400 if the location is falsy), try the cache directly; on a miss
fall back to `fetch_weather_data` and schedule the write-back as a background
task carrying `user_id=weather_request.user_id`.  The provider response the
handler would observe is passed as `resp`. -/
def get_weather_data (users : List User) (store : List WeatherRow)
    (today : Date) (resp : ProviderResponse) (uid : Int) : EndpointResult :=
  match users.find? (fun u => u.user_id == uid) with
  | none => .error ⟨404, "User not found."⟩
  | some user =>
    if ¬ locationTruthy user.location then .error ⟨400, "User location not set."⟩
    else
      let location := user.location.getD ""
      let weather_data := fetch_weather_data_from_db store today location
      if ¬ weather_data.isEmpty then .ok weather_data none
      else
        match (fetch_weather_data store today location resp).2 with
        | .error e => .error e
        | .ok entries => .ok entries (some (entries, some uid))

/-- Execution of the detached background task after the response was sent:
no task leaves the store alone; a scheduled write-back runs
`insert_weather_data_to_db` whose commit may fail, in which case the
exception escapes the task runner and the store is as the rollback left
it. -/
def runTask (store : List WeatherRow)
    (task : Option (List WeatherEntry × Option Int)) (commitOk : Bool) :
    List WeatherRow :=
  match task with
  | none => store
  | some (d, u) =>
    match insert_weather_data_to_db d u store commitOk with
    | .ok store' => store'
    | .error _ store' => store'

/-- The full request cycle of `POST /weather/`: the response is produced
first, then (after the response is already fixed) FastAPI runs the scheduled
background task, whose commit may fail (`commitOk = false`).  Returns the
response together with the weather store after the task ran. -/
def run_weather_request (users : List User) (store : List WeatherRow)
    (today : Date) (resp : ProviderResponse) (uid : Int) (commitOk : Bool) :
    EndpointResult × List WeatherRow :=
  let r := get_weather_data users store today resp uid
  (r, runTask store r.task commitOk)

/-- One persisted outfit-suggestion row, reduced to the fields the
entrypoint's contract mentions. -/
structure SuggestionRecord where
  suggestion_id : Int
  user_id : Int
  gender : String
  outfit_details : List (List (String × Int))
deriving Repr, DecidableEq

/-- Modelled from the spec: `suggest_outfits` lives in `outfit_suggester.py`,
which is not among the provided sources; only its caller
(`suggest_outfit_endpoint` in `main.py`) is.  Per §4.2 of the spec, `userId`
must resolve to an existing user with a non-empty `location`; absence of
either is a `ValidationError` (a Python `ValueError`, caught by the caller)
and nothing is written.  On success exactly one `SuggestionRecord` is
appended and returned; its contents beyond ownership and gender are opaque
to the claims settled here. -/
def suggest_outfits (users : List User) (suggestions : List SuggestionRecord)
    (uid : Int) : Except String (SuggestionRecord × List SuggestionRecord) :=
  match users.find? (fun u => u.user_id == uid) with
  | none => .error "User not found"
  | some user =>
    if locationTruthy user.location then
      let record : SuggestionRecord :=
        { suggestion_id := (suggestions.length : Int) + 1
          user_id := uid
          gender := user.gender.getD ""
          outfit_details := [] }
      .ok (record, suggestions ++ [record])
    else .error "User location is not set"

/-- Embedding of `suggest_outfit_endpoint` (the `POST /outfits/suggest` handler in
`main.py`): call `suggest_outfits`; a `ValueError` is surfaced as
`HTTPException(400, str(ve))`.  Returns the response and the suggestion
store after the call. -/
def suggest_outfit_endpoint (users : List User)
    (suggestions : List SuggestionRecord) (uid : Int) :
    (Except HttpError SuggestionRecord) × List SuggestionRecord :=
  match suggest_outfits users suggestions uid with
  | .ok (record, suggestions') => (.ok record, suggestions')
  | .error msg => (.error ⟨400, msg⟩, suggestions)

/-! ### General lemmas about the embedded operations -/

theorem length_dbQuery (store : List WeatherRow) (today : Date)
    (location : String) (uid : Option Int) :
    (dbQuery store today location uid).length =
      min 5 (store.filter (rowMatches location today uid)).length := by
  simp [dbQuery, List.length_insertionSort]

/-- A sample stored row; only `date`, `location` and `user_id` vary across
the concrete instances used below. -/
def sampleRow (d : Date) (loc : String) (uid : Option Int) : WeatherRow :=
  { date := d
    location := loc
    temp_max := 70
    temp_min := 50
    feels_max := 72
    feels_min := 48
    wind_speed := 5
    humidity := 40
    precipitation := 0
    precipitation_probability := 10
    special_condition := "Clear"
    weather_icon := "clear-day"
    user_id := uid }

/-- A store holding exactly five Austin rows dated `0..4`, none owned. -/
def austinStore : List WeatherRow :=
  [sampleRow 0 "Austin,US" none, sampleRow 1 "Austin,US" none,
   sampleRow 2 "Austin,US" none, sampleRow 3 "Austin,US" none,
   sampleRow 4 "Austin,US" none]

/-! ### C1 — cache read returns a full window or nothing -/

/-- C1: `fetch_weather_data_from_db` returns a non-empty result exactly when
the store holds at least a full window (so the limited query finds exactly 5
rows); its result length is 5 on a hit and 0 otherwise, so a partial window
(fewer than 5 matching rows) yields the empty list. -/
theorem cache_read_full_window_or_empty (store : List WeatherRow)
    (today : Date) (location : String) (uid : Option Int) :
    (fetch_weather_data_from_db store today location uid ≠ [] ↔
      5 ≤ (store.filter (rowMatches location today uid)).length) ∧
    (fetch_weather_data_from_db store today location uid).length =
      (if 5 ≤ (store.filter (rowMatches location today uid)).length then 5 else 0) := by
  have hlen := length_dbQuery store today location uid
  by_cases h : 5 ≤ (store.filter (rowMatches location today uid)).length
  · have h5 : (dbQuery store today location uid).length = 5 := by
      omega
    have hres : fetch_weather_data_from_db store today location uid =
        (dbQuery store today location uid).map WeatherRow.toEntry := by
      simp [fetch_weather_data_from_db, h5]
    refine ⟨⟨fun _ => h, fun _ => ?_⟩, ?_⟩
    · rw [hres]
      intro hnil
      have := congrArg List.length hnil
      simp [h5] at this
    · rw [hres, if_pos h]
      simp [h5]
  · have h5 : (dbQuery store today location uid).length ≠ 5 := by
      omega
    have hres : fetch_weather_data_from_db store today location uid = [] := by
      simp [fetch_weather_data_from_db, h5]
    refine ⟨⟨fun hne => absurd hres hne, fun hge => absurd hge h⟩, ?_⟩
    rw [hres, if_neg h]
    rfl

/-- C1 witness: concrete evaluation on a store with a full Austin window. -/
theorem cache_read_full_window_or_empty_witness :
    (fetch_weather_data_from_db austinStore 0 "Austin,US" none ≠ [] ↔
      5 ≤ (austinStore.filter (rowMatches "Austin,US" 0 none)).length) ∧
    (fetch_weather_data_from_db austinStore 0 "Austin,US" none).length =
      (if 5 ≤ (austinStore.filter (rowMatches "Austin,US" 0 none)).length then 5 else 0) :=
  cache_read_full_window_or_empty austinStore 0 "Austin,US" none

/-! ### C4 — full cache window is returned as is, provider untouched -/

/-- The entries a full-window cache hit returns: the matching rows sorted by
date, projected to entry dictionaries. -/
def sortedWindow (store : List WeatherRow) (today : Date) (location : String) :
    List WeatherEntry :=
  (List.insertionSort dateLE (store.filter (rowMatches location today none))).map
    WeatherRow.toEntry

theorem cache_read_of_exact_window (store : List WeatherRow) (today : Date)
    (location : String)
    (h : (store.filter (rowMatches location today none)).length = 5) :
    fetch_weather_data_from_db store today location none =
      sortedWindow store today location := by
  have hsortlen : (List.insertionSort dateLE
      (store.filter (rowMatches location today none))).length = 5 := by
    rw [List.length_insertionSort]
    exact h
  have hq : dbQuery store today location none =
      List.insertionSort dateLE (store.filter (rowMatches location today none)) := by
    unfold dbQuery
    exact List.take_of_length_le (by omega)
  have hlen5 : ((dbQuery store today location none).map WeatherRow.toEntry).length = 5 := by
    rw [hq, List.length_map, hsortlen]
  unfold fetch_weather_data_from_db
  rw [if_pos hlen5, hq]
  rfl

/-- C4: when the store holds exactly a full window (5 rows for the location
dated ≥ today), `fetch_weather_data` performs no provider call (count 0) and
returns exactly those rows — a permutation of the matching rows — in
ascending date order, whatever the provider would have answered. -/
theorem fetch_full_window_no_provider_call (store : List WeatherRow)
    (today : Date) (location : String) (resp : ProviderResponse)
    (h : (store.filter (rowMatches location today none)).length = 5) :
    fetch_weather_data store today location resp =
      (0, .ok (sortedWindow store today location)) ∧
    (sortedWindow store today location).Perm
      ((store.filter (rowMatches location today none)).map WeatherRow.toEntry) ∧
    List.Sorted (· ≤ ·) ((sortedWindow store today location).map WeatherEntry.date) := by
  have hdb := cache_read_of_exact_window store today location h
  have hwlen : (sortedWindow store today location).length = 5 := by
    unfold sortedWindow
    rw [List.length_map, List.length_insertionSort]
    exact h
  refine ⟨?_, ?_, ?_⟩
  · have hne : ¬ (sortedWindow store today location).isEmpty := by
      intro hcontra
      rw [List.isEmpty_iff] at hcontra
      rw [hcontra] at hwlen
      simp at hwlen
    unfold fetch_weather_data
    rw [hdb, if_pos hne]
  · exact (List.perm_insertionSort dateLE _).map WeatherRow.toEntry
  · unfold sortedWindow
    rw [List.map_map]
    exact List.Pairwise.map _ (fun a b hab => hab)
      (List.sorted_insertionSort dateLE _)

/-- C4 witness: concrete evaluation on the five-row Austin store. -/
theorem fetch_full_window_no_provider_call_witness :
    (austinStore.filter (rowMatches "Austin,US" 0 none)).length = 5 ∧
    (fetch_weather_data austinStore 0 "Austin,US" ⟨200, "", none⟩ =
      (0, .ok (sortedWindow austinStore 0 "Austin,US")) ∧
    (sortedWindow austinStore 0 "Austin,US").Perm
      ((austinStore.filter (rowMatches "Austin,US" 0 none)).map WeatherRow.toEntry) ∧
    List.Sorted (· ≤ ·) ((sortedWindow austinStore 0 "Austin,US").map WeatherEntry.date)) :=
  ⟨by rfl, fetch_full_window_no_provider_call austinStore 0 "Austin,US" ⟨200, "", none⟩ (by rfl)⟩

/-! ### C3 — cache miss: one provider call, one row per provider day -/

theorem cache_read_miss (store : List WeatherRow) (today : Date)
    (location : String) (uid : Option Int)
    (h : (store.filter (rowMatches location today uid)).length < 5) :
    fetch_weather_data_from_db store today location uid = [] := by
  have hlen := length_dbQuery store today location uid
  have h5 : ((dbQuery store today location uid).map WeatherRow.toEntry).length ≠ 5 := by
    rw [List.length_map]
    omega
  unfold fetch_weather_data_from_db
  rw [if_neg h5]

/-- A provider day record with every optional field absent. -/
def sparseDay (d : Date) : ProviderDay :=
  { datetime := d
    tempmax := none
    tempmin := none
    feelslikemax := none
    feelslikemin := none
    windspeed := none
    humidity := none
    precip := none
    precipprob := none
    conditions := none
    icon := none }

/-- A successful provider response carrying six day records (as the
`next5days` endpoint may legitimately produce: today plus five more). -/
def bostonDays : List ProviderDay :=
  [sparseDay 0, sparseDay 1, sparseDay 2, sparseDay 3, sparseDay 4, sparseDay 5]

/-- The 200-status response wrapping `bostonDays`. -/
def bostonResp : ProviderResponse := ⟨200, "", some bostonDays⟩

/-- C3 counterexample: with an empty cache (fewer than 5 matching rows) and a
successful provider response carrying six day records, `fetch_weather_data`
performs its single provider call but returns six derived rows, not
`windowSize = 5` — refuting the claim that the miss path always returns
exactly 5 rows. -/
theorem fetch_miss_not_always_five_rows :
    (([] : List WeatherRow).filter (rowMatches "Boston,US" 0 none)).length < 5 ∧
    fetch_weather_data [] 0 "Boston,US" bostonResp =
      (1, .ok (bostonDays.map (transformDay "Boston,US"))) ∧
    (bostonDays.map (transformDay "Boston,US")).length ≠ 5 := by
  refine ⟨by decide, by rfl, by decide⟩

/-- C3 (amended): on a cache miss (fewer than `windowSize` matching rows) the
provider is invoked exactly once, and on a success response the result has
exactly one derived row per provider day record — hence exactly 5 rows
precisely when the provider answers with 5 day records. -/
theorem fetch_miss_provider_once (store : List WeatherRow) (today : Date)
    (location : String) (resp : ProviderResponse)
    (h : (store.filter (rowMatches location today none)).length < 5) :
    (fetch_weather_data store today location resp).1 = 1 ∧
    (∀ ds : List ProviderDay, resp.status_code = 200 → resp.days = some ds →
      ds ≠ [] →
      (fetch_weather_data store today location resp).2 =
        .ok (ds.map (transformDay location)) ∧
      (ds.map (transformDay location)).length = ds.length) := by
  have hdb := cache_read_miss store today location none h
  unfold fetch_weather_data
  rw [hdb]
  simp only [List.isEmpty_nil, not_true, if_false, Bool.not_true]
  constructor
  · by_cases hst : resp.status_code = 200
    · rw [if_neg (by simp [hst])]
      cases hdays : resp.days with
      | none => rfl
      | some ds => cases ds with
        | nil => rfl
        | cons d rest => rfl
    · rw [if_pos (by simpa using hst)]
  · intro ds hst hdays hne
    rw [if_neg (by simp [hst]), hdays]
    cases ds with
    | nil => exact absurd rfl hne
    | cons d rest => exact ⟨rfl, by simp⟩

/-- C3 witness (for the amended claim): empty store, a 200 response with five
day records; the fetch calls the provider once and derives five rows. -/
theorem fetch_miss_provider_once_witness :
    (([] : List WeatherRow).filter (rowMatches "Chicago,US" 0 none)).length < 5 ∧
    (fetch_weather_data [] 0 "Chicago,US"
        ⟨200, "", some [sparseDay 0, sparseDay 1, sparseDay 2, sparseDay 3, sparseDay 4]⟩).1 = 1 ∧
    (fetch_weather_data [] 0 "Chicago,US"
        ⟨200, "", some [sparseDay 0, sparseDay 1, sparseDay 2, sparseDay 3, sparseDay 4]⟩).2 =
      .ok ([sparseDay 0, sparseDay 1, sparseDay 2, sparseDay 3, sparseDay 4].map
        (transformDay "Chicago,US")) ∧
    ([sparseDay 0, sparseDay 1, sparseDay 2, sparseDay 3, sparseDay 4].map
        (transformDay "Chicago,US")).length = 5 := by
  have hmain := fetch_miss_provider_once [] 0 "Chicago,US"
    ⟨200, "", some [sparseDay 0, sparseDay 1, sparseDay 2, sparseDay 3, sparseDay 4]⟩
    (by decide)
  have hcase := hmain.2 [sparseDay 0, sparseDay 1, sparseDay 2, sparseDay 3, sparseDay 4]
    rfl rfl (by decide)
  exact ⟨by decide, hmain.1, hcase.1, hcase.2⟩

/-! ### C6 — sparse provider fields default instead of failing -/

/-- C6: deriving an entry from a provider day record never fails on sparse
fields: each missing numeric field defaults to `0.0`, a missing `conditions`
label defaults to `"Unknown"`, a missing `icon` defaults to `""`; and a
success response whose days are arbitrarily sparse still yields a non-error
fetch. -/
theorem sparse_fields_default (location : String) (day : ProviderDay) :
    (day.tempmax = none → (transformDay location day).temp_max = 0) ∧
    (day.tempmin = none → (transformDay location day).temp_min = 0) ∧
    (day.feelslikemax = none → (transformDay location day).feels_max = 0) ∧
    (day.feelslikemin = none → (transformDay location day).feels_min = 0) ∧
    (day.windspeed = none → (transformDay location day).wind_speed = 0) ∧
    (day.humidity = none → (transformDay location day).humidity = 0) ∧
    (day.precip = none → (transformDay location day).precipitation = 0) ∧
    (day.precipprob = none →
      (transformDay location day).precipitation_probability = 0) ∧
    (day.conditions = none →
      (transformDay location day).special_condition = "Unknown") ∧
    (day.icon = none → (transformDay location day).weather_icon = "") ∧
    (∀ (store : List WeatherRow) (today : Date) (rest : List ProviderDay),
      ((fetch_weather_data store today location
        ⟨200, "", some (day :: rest)⟩).2).isError = false) := by
  refine ⟨fun h => by simp [transformDay, h], fun h => by simp [transformDay, h],
    fun h => by simp [transformDay, h], fun h => by simp [transformDay, h],
    fun h => by simp [transformDay, h], fun h => by simp [transformDay, h],
    fun h => by simp [transformDay, h], fun h => by simp [transformDay, h],
    fun h => by simp [transformDay, h], fun h => by simp [transformDay, h],
    ?_⟩
  intro store today rest
  unfold fetch_weather_data
  by_cases hdb : (fetch_weather_data_from_db store today location).isEmpty
  · rw [if_neg (by simp [hdb])]
    rw [if_neg (by simp)]
    rfl
  · rw [if_pos (by simpa using hdb)]
    rfl

/-- C6 witness: the fully sparse day record evaluates to all defaults and a
non-failing fetch. -/
theorem sparse_fields_default_witness :
    (transformDay "Boston,US" (sparseDay 0)).temp_max = 0 ∧
    (transformDay "Boston,US" (sparseDay 0)).temp_min = 0 ∧
    (transformDay "Boston,US" (sparseDay 0)).feels_max = 0 ∧
    (transformDay "Boston,US" (sparseDay 0)).feels_min = 0 ∧
    (transformDay "Boston,US" (sparseDay 0)).wind_speed = 0 ∧
    (transformDay "Boston,US" (sparseDay 0)).humidity = 0 ∧
    (transformDay "Boston,US" (sparseDay 0)).precipitation = 0 ∧
    (transformDay "Boston,US" (sparseDay 0)).precipitation_probability = 0 ∧
    (transformDay "Boston,US" (sparseDay 0)).special_condition = "Unknown" ∧
    (transformDay "Boston,US" (sparseDay 0)).weather_icon = "" ∧
    ((fetch_weather_data [] 0 "Boston,US"
      ⟨200, "", some (sparseDay 0 :: [])⟩).2).isError = false := by
  have h := sparse_fields_default "Boston,US" (sparseDay 0)
  exact ⟨h.1 rfl, h.2.1 rfl, h.2.2.1 rfl, h.2.2.2.1 rfl, h.2.2.2.2.1 rfl,
    h.2.2.2.2.2.1 rfl, h.2.2.2.2.2.2.1 rfl, h.2.2.2.2.2.2.2.1 rfl,
    h.2.2.2.2.2.2.2.2.1 rfl, h.2.2.2.2.2.2.2.2.2.1 rfl,
    h.2.2.2.2.2.2.2.2.2.2 [] 0 []⟩

/-! ### C7 — hard failure exactly on reached-provider bad responses -/

/-- C7: `fetch_weather_data` raises an `HTTPException` if and only if the
cache read missed (so the provider call is reached) and the response either
has a non-200 status or lacks a non-empty `days` array; and the provider is
never called more than once (no inline retry). -/
theorem fetch_hard_failure_iff (store : List WeatherRow) (today : Date)
    (location : String) (resp : ProviderResponse) :
    (((fetch_weather_data store today location resp).2).isError = true ↔
      (fetch_weather_data_from_db store today location none = [] ∧
        (resp.status_code ≠ 200 ∨ resp.days = none ∨ resp.days = some []))) ∧
    (fetch_weather_data store today location resp).1 ≤ 1 := by
  unfold fetch_weather_data
  by_cases hdb : (fetch_weather_data_from_db store today location).isEmpty
  · have hdbe : fetch_weather_data_from_db store today location none = [] := by
      rwa [List.isEmpty_iff] at hdb
    rw [if_neg (by simp [hdb])]
    by_cases hst : resp.status_code = 200
    · rw [if_neg (by simp [hst])]
      cases hdays : resp.days with
      | none => exact ⟨by simp [FetchOutcome.isError, hdbe, hst, hdays], by norm_num⟩
      | some ds => cases ds with
        | nil => exact ⟨by simp [FetchOutcome.isError, hdbe, hst, hdays], by norm_num⟩
        | cons d rest =>
          exact ⟨by simp [FetchOutcome.isError, hdbe, hst, hdays], by norm_num⟩
    · rw [if_pos (by simpa using hst)]
      exact ⟨by simp [FetchOutcome.isError, hdbe, hst], by norm_num⟩
  · have hdbn : fetch_weather_data_from_db store today location none ≠ [] := by
      rwa [List.isEmpty_iff] at hdb
    rw [if_pos (by simpa using hdb)]
    exact ⟨by simp [FetchOutcome.isError, hdbn], by norm_num⟩

/-- C7 witness: empty cache plus a 500 provider response is a hard failure;
the provider was called exactly once. -/
theorem fetch_hard_failure_iff_witness :
    (((fetch_weather_data [] 0 "Boston,US" ⟨500, "boom", none⟩).2).isError = true ↔
      (fetch_weather_data_from_db [] 0 "Boston,US" none = [] ∧
        ((500 : Nat) ≠ 200 ∨ (none : Option (List ProviderDay)) = none ∨
          (none : Option (List ProviderDay)) = some []))) ∧
    (fetch_weather_data [] 0 "Boston,US" ⟨500, "boom", none⟩).1 ≤ 1 :=
  fetch_hard_failure_iff [] 0 "Boston,US" ⟨500, "boom", none⟩

/-! ### C2 — the write-back is an upsert keyed on (date, location, owner) -/

/-- The upsert match key of a stored row. -/
def rowKey (r : WeatherRow) : Date × String × Option Int :=
  (r.date, r.location, r.user_id)

/-- The invariant of the weather store: at most one row per
(date, location, owner) key. -/
def AtMostOnePerKey (store : List WeatherRow) : Prop :=
  (store.map rowKey).Pairwise (· ≠ ·)

/-- Day data with pairwise distinct (date, location) keys, as produced by the
provider transform (one entry per calendar day of one location). -/
def distinctKeys (data : List WeatherEntry) : Prop :=
  data.Pairwise (fun a b => (a.date, a.location) ≠ (b.date, b.location))

theorem entryKeyMatches_iff (e : WeatherEntry) (uid : Option Int)
    (r : WeatherRow) :
    entryKeyMatches e uid r = true ↔ rowKey r = (e.date, e.location, uid) := by
  simp [entryKeyMatches, rowKey, Prod.ext_iff, and_assoc]

theorem rowKey_applyEntry (e : WeatherEntry) (r : WeatherRow) :
    rowKey (applyEntry e r) = (e.date, e.location, r.user_id) := rfl

theorem applyEntry_of_matches {e : WeatherEntry} {uid : Option Int}
    {r : WeatherRow} (h : entryKeyMatches e uid r = true) :
    applyEntry e r = e.toRow uid := by
  have h' := h
  simp [entryKeyMatches, and_assoc] at h'
  obtain ⟨-, -, hu⟩ := h'
  simp [applyEntry, WeatherEntry.toRow, hu]

theorem entryKeyMatches_toRow (e : WeatherEntry) (uid : Option Int) :
    entryKeyMatches e uid (e.toRow uid) = true := by
  simp [entryKeyMatches, WeatherEntry.toRow]

theorem entryKeyMatches_applyEntry {e : WeatherEntry} {uid : Option Int}
    {r : WeatherRow} (h : entryKeyMatches e uid r = true) :
    entryKeyMatches e uid (applyEntry e r) = true := by
  rw [applyEntry_of_matches h]
  exact entryKeyMatches_toRow e uid

theorem map_rowKey_updateFirst (p : WeatherRow → Bool)
    (f : WeatherRow → WeatherRow)
    (hf : ∀ r, p r = true → rowKey (f r) = rowKey r) :
    ∀ l : List WeatherRow, (updateFirst p f l).map rowKey = l.map rowKey := by
  intro l
  induction l with
  | nil => rfl
  | cons r rs ih =>
    unfold updateFirst
    by_cases hp : p r = true
    · rw [if_pos hp]
      simp [hf r hp]
    · rw [if_neg hp]
      simp [ih]

/-- The first row matching `p` exists and is a fixed point of `f`. -/
def firstMatchFixed (p : WeatherRow → Bool) (f : WeatherRow → WeatherRow) :
    List WeatherRow → Prop
  | [] => False
  | r :: rs => if p r = true then f r = r else firstMatchFixed p f rs

theorem any_of_firstMatchFixed {p : WeatherRow → Bool}
    {f : WeatherRow → WeatherRow} :
    ∀ {l : List WeatherRow}, firstMatchFixed p f l → l.any p = true := by
  intro l
  induction l with
  | nil => intro h; exact absurd h (by simp [firstMatchFixed])
  | cons r rs ih =>
    intro h
    unfold firstMatchFixed at h
    by_cases hp : p r = true
    · simp [List.any_cons, hp]
    · rw [if_neg hp] at h
      simp [List.any_cons, ih h]

theorem updateFirst_of_firstMatchFixed {p : WeatherRow → Bool}
    {f : WeatherRow → WeatherRow} :
    ∀ {l : List WeatherRow}, firstMatchFixed p f l → updateFirst p f l = l := by
  intro l
  induction l with
  | nil => intro _; rfl
  | cons r rs ih =>
    intro h
    unfold firstMatchFixed at h
    unfold updateFirst
    by_cases hp : p r = true
    · rw [if_pos hp] at h
      rw [if_pos hp, h]
    · rw [if_neg hp] at h
      rw [if_neg hp, ih h]

theorem firstMatchFixed_updateFirst {p : WeatherRow → Bool}
    {f : WeatherRow → WeatherRow}
    (hstep : ∀ r, p r = true → p (f r) = true ∧ f (f r) = f r) :
    ∀ {l : List WeatherRow}, l.any p = true →
      firstMatchFixed p f (updateFirst p f l) := by
  intro l
  induction l with
  | nil => intro h; simp at h
  | cons r rs ih =>
    intro h
    unfold updateFirst
    by_cases hp : p r = true
    · rw [if_pos hp]
      unfold firstMatchFixed
      rw [if_pos (hstep r hp).1]
      exact (hstep r hp).2
    · rw [if_neg hp]
      unfold firstMatchFixed
      rw [if_neg hp]
      apply ih
      simp [List.any_cons, hp] at h
      simpa using h

theorem firstMatchFixed_append_singleton {p : WeatherRow → Bool}
    {f : WeatherRow → WeatherRow} {x : WeatherRow}
    (hx : p x = true) (hfx : f x = x) :
    ∀ {l : List WeatherRow}, l.any p = false →
      firstMatchFixed p f (l ++ [x]) := by
  intro l
  induction l with
  | nil =>
    intro _
    rw [List.nil_append]
    unfold firstMatchFixed
    rw [if_pos hx]
    exact hfx
  | cons r rs ih =>
    intro h
    simp [List.any_cons] at h
    rw [List.cons_append]
    unfold firstMatchFixed
    rw [if_neg (by simp [h.1])]
    exact ih (by simpa using h.2)

theorem firstMatchFixed_append {p : WeatherRow → Bool}
    {f : WeatherRow → WeatherRow} (xs : List WeatherRow) :
    ∀ {l : List WeatherRow}, firstMatchFixed p f l →
      firstMatchFixed p f (l ++ xs) := by
  intro l
  induction l with
  | nil => intro h; exact absurd h (by simp [firstMatchFixed])
  | cons r rs ih =>
    intro h
    unfold firstMatchFixed at h
    rw [List.cons_append]
    unfold firstMatchFixed
    by_cases hp : p r = true
    · rw [if_pos hp] at h
      rw [if_pos hp]
      exact h
    · rw [if_neg hp] at h
      rw [if_neg hp]
      exact ih h

theorem entryKeyMatches_false_of_ne {e : WeatherEntry} {uid : Option Int}
    {r : WeatherRow} (h : (r.date, r.location) ≠ (e.date, e.location)) :
    entryKeyMatches e uid r = false := by
  rw [Bool.eq_false_iff]
  intro hcontra
  rw [entryKeyMatches_iff] at hcontra
  apply h
  have h1 : r.date = e.date := congrArg Prod.fst hcontra
  have h2 : r.location = e.location := congrArg (fun x => x.2.1) hcontra
  rw [h1, h2]

theorem entryKeyMatches_datePair {e : WeatherEntry} {uid : Option Int}
    {r : WeatherRow} (h : entryKeyMatches e uid r = true) :
    (r.date, r.location) = (e.date, e.location) := by
  rw [entryKeyMatches_iff] at h
  have h1 : r.date = e.date := congrArg Prod.fst h
  have h2 : r.location = e.location := congrArg (fun x => x.2.1) h
  rw [h1, h2]

theorem firstMatchFixed_updateFirst_other {p q : WeatherRow → Bool}
    {f g : WeatherRow → WeatherRow}
    (hpq : ∀ r, q r = true → p r = false)
    (hpg : ∀ r, q r = true → p (g r) = false) :
    ∀ {l : List WeatherRow}, firstMatchFixed p f l →
      firstMatchFixed p f (updateFirst q g l) := by
  intro l
  induction l with
  | nil => intro h; exact absurd h (by simp [firstMatchFixed])
  | cons r rs ih =>
    intro h
    unfold firstMatchFixed at h
    unfold updateFirst
    by_cases hq : q r = true
    · rw [if_pos hq]
      unfold firstMatchFixed
      rw [if_neg (by simp [hpg r hq])]
      rw [if_neg (by simp [hpq r hq])] at h
      exact h
    · rw [if_neg hq]
      unfold firstMatchFixed
      by_cases hp : p r = true
      · rw [if_pos hp] at h
        rw [if_pos hp]
        exact h
      · rw [if_neg hp] at h
        rw [if_neg hp]
        exact ih h

theorem upsertEntry_of_firstMatchFixed {e : WeatherEntry} {uid : Option Int}
    {l : List WeatherRow}
    (h : firstMatchFixed (entryKeyMatches e uid) (applyEntry e) l) :
    upsertEntry uid l e = l := by
  unfold upsertEntry
  rw [if_pos (any_of_firstMatchFixed h)]
  exact updateFirst_of_firstMatchFixed h

theorem firstMatchFixed_upsertEntry_self (e : WeatherEntry) (uid : Option Int)
    (l : List WeatherRow) :
    firstMatchFixed (entryKeyMatches e uid) (applyEntry e) (upsertEntry uid l e) := by
  unfold upsertEntry
  by_cases hany : l.any (entryKeyMatches e uid) = true
  · rw [if_pos hany]
    refine firstMatchFixed_updateFirst (fun r hr => ⟨entryKeyMatches_applyEntry hr, ?_⟩) hany
    rw [applyEntry_of_matches hr]
    exact applyEntry_of_matches (entryKeyMatches_toRow e uid)
  · rw [if_neg hany]
    refine firstMatchFixed_append_singleton (entryKeyMatches_toRow e uid)
      (applyEntry_of_matches (entryKeyMatches_toRow e uid)) ?_
    simpa using hany

theorem firstMatchFixed_upsertEntry_other {e e' : WeatherEntry}
    {uid : Option Int}
    (hkey : (e.date, e.location) ≠ (e'.date, e'.location))
    {l : List WeatherRow}
    (h : firstMatchFixed (entryKeyMatches e uid) (applyEntry e) l) :
    firstMatchFixed (entryKeyMatches e uid) (applyEntry e)
      (upsertEntry uid l e') := by
  unfold upsertEntry
  by_cases hany : l.any (entryKeyMatches e' uid) = true
  · rw [if_pos hany]
    refine firstMatchFixed_updateFirst_other (fun r hr => ?_) (fun r hr => ?_) h
    · apply entryKeyMatches_false_of_ne
      rw [entryKeyMatches_datePair hr]
      exact fun hc => hkey hc.symm
    · apply entryKeyMatches_false_of_ne
      exact fun hc => hkey hc.symm
  · rw [if_neg hany]
    exact firstMatchFixed_append [e'.toRow uid] h

theorem firstMatchFixed_insertCommitted {e : WeatherEntry} {uid : Option Int} :
    ∀ (rest : List WeatherEntry),
      (∀ e' ∈ rest, (e.date, e.location) ≠ (e'.date, e'.location)) →
      ∀ {l : List WeatherRow},
        firstMatchFixed (entryKeyMatches e uid) (applyEntry e) l →
        firstMatchFixed (entryKeyMatches e uid) (applyEntry e)
          (insertCommitted rest uid l) := by
  intro rest
  induction rest with
  | nil => intro _ l h; exact h
  | cons e'' rest' ih =>
    intro hkeys l h
    exact ih (fun x hx => hkeys x (by simp [hx]))
      (firstMatchFixed_upsertEntry_other (hkeys e'' (by simp)) h)

theorem insertCommitted_idem (uid : Option Int) :
    ∀ (data : List WeatherEntry), distinctKeys data →
      ∀ s, insertCommitted data uid (insertCommitted data uid s) =
        insertCommitted data uid s := by
  intro data
  induction data with
  | nil => intro _ s; rfl
  | cons e rest ih =>
    intro hdata s
    rw [distinctKeys, List.pairwise_cons] at hdata
    obtain ⟨hkeys, hrest⟩ := hdata
    have h1 := firstMatchFixed_upsertEntry_self e uid s
    have h2 := firstMatchFixed_insertCommitted rest hkeys h1
    have h3 := upsertEntry_of_firstMatchFixed h2
    show insertCommitted rest uid
        (upsertEntry uid (insertCommitted rest uid (upsertEntry uid s e)) e) =
      insertCommitted rest uid (upsertEntry uid s e)
    rw [h3]
    exact ih hrest (upsertEntry uid s e)

theorem rowKey_applyEntry_of_matches {e : WeatherEntry} {uid : Option Int}
    {r : WeatherRow} (h : entryKeyMatches e uid r = true) :
    rowKey (applyEntry e r) = rowKey r := by
  have h' := h
  simp [entryKeyMatches, and_assoc] at h'
  obtain ⟨hd, hl, hu⟩ := h'
  simp [rowKey, applyEntry, hd, hl, hu]

theorem atMostOne_upsertEntry {uid : Option Int} {l : List WeatherRow}
    (h : AtMostOnePerKey l) (e : WeatherEntry) :
    AtMostOnePerKey (upsertEntry uid l e) := by
  unfold upsertEntry
  by_cases hany : l.any (entryKeyMatches e uid) = true
  · rw [if_pos hany]
    unfold AtMostOnePerKey at h ⊢
    rw [map_rowKey_updateFirst _ _ (fun r hr => rowKey_applyEntry_of_matches hr)]
    exact h
  · rw [if_neg hany]
    unfold AtMostOnePerKey at h ⊢
    rw [List.map_append, List.pairwise_append]
    refine ⟨h, by simp, ?_⟩
    intro a ha b hb
    simp only [List.map_cons, List.map_nil, List.mem_singleton] at hb
    subst hb
    simp only [List.mem_map] at ha
    obtain ⟨r, hrl, hra⟩ := ha
    subst hra
    intro hcontra
    have hm : entryKeyMatches e uid r = true :=
      (entryKeyMatches_iff e uid r).mpr (by rw [hcontra]; rfl)
    exact absurd (List.any_eq_true.mpr ⟨r, hrl, hm⟩) hany

theorem atMostOne_insertCommitted (uid : Option Int) :
    ∀ (data : List WeatherEntry) (l : List WeatherRow), AtMostOnePerKey l →
      AtMostOnePerKey (insertCommitted data uid l) := by
  intro data
  induction data with
  | nil => intro l h; exact h
  | cons e rest ih => intro l h; exact ih _ (atMostOne_upsertEntry h e)

theorem mem_updateFirst_of_const {p : WeatherRow → Bool}
    {f : WeatherRow → WeatherRow} (c : WeatherRow)
    (hc : ∀ r, p r = true → f r = c) :
    ∀ {l : List WeatherRow}, l.any p = true → c ∈ updateFirst p f l := by
  intro l
  induction l with
  | nil => intro h; simp at h
  | cons r rs ih =>
    intro h
    unfold updateFirst
    by_cases hp : p r = true
    · rw [if_pos hp]
      rw [hc r hp]
      exact List.mem_cons_self _ _
    · rw [if_neg hp]
      have hrs : rs.any p = true := by
        simp only [List.any_cons, Bool.or_eq_true] at h
        rcases h with h1 | h2
        · exact absurd h1 hp
        · exact h2
      exact List.mem_cons_of_mem _ (ih hrs)

theorem toRow_mem_upsertEntry (e : WeatherEntry) (uid : Option Int)
    (l : List WeatherRow) :
    e.toRow uid ∈ upsertEntry uid l e := by
  unfold upsertEntry
  by_cases hany : l.any (entryKeyMatches e uid) = true
  · rw [if_pos hany]
    exact mem_updateFirst_of_const _ (fun r hr => applyEntry_of_matches hr) hany
  · rw [if_neg hany]
    simp

theorem mem_updateFirst_of_not_p {p : WeatherRow → Bool}
    {f : WeatherRow → WeatherRow} {x : WeatherRow} (hx : p x = false) :
    ∀ {l : List WeatherRow}, x ∈ l → x ∈ updateFirst p f l := by
  intro l
  induction l with
  | nil => intro h; simp at h
  | cons r rs ih =>
    intro h
    unfold updateFirst
    by_cases hp : p r = true
    · rw [if_pos hp]
      rcases List.mem_cons.mp h with h1 | h2
      · subst h1
        rw [hp] at hx
        exact absurd hx (by simp)
      · exact List.mem_cons_of_mem _ h2
    · rw [if_neg hp]
      rcases List.mem_cons.mp h with h1 | h2
      · subst h1
        exact List.mem_cons_self _ _
      · exact List.mem_cons_of_mem _ (ih h2)

theorem mem_upsertEntry_of_mem {x : WeatherRow} {e' : WeatherEntry}
    {uid : Option Int} (hx : entryKeyMatches e' uid x = false)
    {l : List WeatherRow} (hl : x ∈ l) : x ∈ upsertEntry uid l e' := by
  unfold upsertEntry
  by_cases hany : l.any (entryKeyMatches e' uid) = true
  · rw [if_pos hany]
    exact mem_updateFirst_of_not_p hx hl
  · rw [if_neg hany]
    exact List.mem_append_left _ hl

theorem mem_insertCommitted_of_mem {x : WeatherRow} {uid : Option Int} :
    ∀ (data : List WeatherEntry) (l : List WeatherRow), x ∈ l →
      (∀ e' ∈ data, entryKeyMatches e' uid x = false) →
      x ∈ insertCommitted data uid l := by
  intro data
  induction data with
  | nil => intro l h _; exact h
  | cons e0 rest ih =>
    intro l h hfalse
    exact ih _ (mem_upsertEntry_of_mem (hfalse e0 (by simp)) h)
      (fun e' he' => hfalse e' (by simp [he']))

theorem toRow_mem_insertCommitted {uid : Option Int} :
    ∀ (data : List WeatherEntry) (l : List WeatherRow) (e : WeatherEntry),
      e ∈ data → distinctKeys data → e.toRow uid ∈ insertCommitted data uid l := by
  intro data
  induction data with
  | nil => intro l e he _; simp at he
  | cons e0 rest ih =>
    intro l e he hdata
    rw [distinctKeys, List.pairwise_cons] at hdata
    rcases List.mem_cons.mp he with h1 | h2
    · subst h1
      refine mem_insertCommitted_of_mem rest _ (toRow_mem_upsertEntry e uid l) ?_
      intro e' he'
      exact entryKeyMatches_false_of_ne (hdata.1 e' he')
    · exact ih _ e h2 hdata.2

theorem filter_length_le_one_of_atMostOne {e : WeatherEntry}
    {uid : Option Int} :
    ∀ {l : List WeatherRow}, AtMostOnePerKey l →
      (l.filter (entryKeyMatches e uid)).length ≤ 1 := by
  intro l
  induction l with
  | nil => intro _; simp
  | cons r rs ih =>
    intro h
    unfold AtMostOnePerKey at h
    rw [List.map_cons, List.pairwise_cons] at h
    obtain ⟨hr, hrs⟩ := h
    by_cases hp : entryKeyMatches e uid r = true
    · rw [List.filter_cons_of_pos hp]
      have hnil : rs.filter (entryKeyMatches e uid) = [] := by
        rw [List.filter_eq_nil_iff]
        intro r' hr' hp'
        have h1 := (entryKeyMatches_iff e uid r).mp hp
        have h2 := (entryKeyMatches_iff e uid r').mp hp'
        exact hr (rowKey r') (List.mem_map_of_mem rowKey hr') (by rw [h1, h2])
      rw [hnil]
      simp
    · rw [List.filter_cons_of_neg (by simpa using hp)]
      exact ih hrs

theorem eq_singleton_of_mem_of_length_le_one {α : Type} {L : List α} {x : α}
    (hx : x ∈ L) (hlen : L.length ≤ 1) : L = [x] := by
  cases L with
  | nil => simp at hx
  | cons a L' =>
    cases L' with
    | nil =>
      rw [List.mem_singleton] at hx
      rw [hx]
    | cons b L'' => simp at hlen

/-- C2: the write-back is an upsert keyed on (date, location, user_id).  For
a store satisfying the at-most-one-row-per-key invariant and day data with
distinct (date, location) keys, a successful write-back preserves the
invariant, writing the same data again returns the same store (idempotence),
and for every written entry the store holds exactly one row with that key,
whose field values are the entry's values (owner stamped with the call's
`user_id`). -/
theorem writeback_upsert_invariant_idempotent (data : List WeatherEntry)
    (uid : Option Int) (store : List WeatherRow)
    (hstore : AtMostOnePerKey store) (hdata : distinctKeys data) :
    ∀ s', insert_weather_data_to_db data uid store true = .ok s' →
      AtMostOnePerKey s' ∧
      insert_weather_data_to_db data uid s' true = .ok s' ∧
      ∀ e ∈ data, s'.filter (entryKeyMatches e uid) = [e.toRow uid] := by
  intro s' hs'
  unfold insert_weather_data_to_db at hs'
  by_cases hempty : data.isEmpty
  · rw [if_pos hempty] at hs'
    injection hs' with h
    subst h
    rw [List.isEmpty_iff] at hempty
    subst hempty
    refine ⟨hstore, ?_, ?_⟩
    · rfl
    · intro e he
      simp at he
  · rw [if_neg hempty, if_pos rfl] at hs'
    injection hs' with h
    subst h
    refine ⟨atMostOne_insertCommitted uid data store hstore, ?_, ?_⟩
    · unfold insert_weather_data_to_db
      rw [if_neg hempty, if_pos rfl]
      rw [insertCommitted_idem uid data hdata store]
    · intro e he
      refine eq_singleton_of_mem_of_length_le_one ?_ ?_
      · exact List.mem_filter.mpr
          ⟨toRow_mem_insertCommitted data store e he hdata,
           entryKeyMatches_toRow e uid⟩
      · exact filter_length_le_one_of_atMostOne
          (atMostOne_insertCommitted uid data store hstore)

/-- A sample entry dictionary, such as one derived from a provider day. -/
def sampleEntry (d : Date) (loc : String) : WeatherEntry :=
  { date := d
    location := loc
    temp_max := 70
    temp_min := 50
    feels_max := 72
    feels_min := 48
    wind_speed := 5
    humidity := 40
    precipitation := 0
    precipitation_probability := 10
    special_condition := "Clear"
    weather_icon := "clear-day" }

/-- The two-day data batch used to witness the upsert properties. -/
def witnessData : List WeatherEntry :=
  [sampleEntry 0 "Austin,US", sampleEntry 1 "Austin,US"]

/-- C2 witness: two-day data written into an empty store, owner 1; the
resulting store satisfies the invariant, rewriting it is a no-op, and each
day is present exactly once. -/
theorem writeback_upsert_invariant_idempotent_witness :
    AtMostOnePerKey (insertCommitted witnessData (some 1) []) ∧
    insert_weather_data_to_db witnessData (some 1)
        (insertCommitted witnessData (some 1) []) true =
      .ok (insertCommitted witnessData (some 1) []) ∧
    ∀ e ∈ witnessData,
      (insertCommitted witnessData (some 1) []).filter
        (entryKeyMatches e (some 1)) = [e.toRow (some 1)] :=
  writeback_upsert_invariant_idempotent witnessData (some 1) []
    (by constructor) (by unfold distinctKeys; decide)
    (insertCommitted witnessData (some 1) []) rfl

/-! ### C10 — empty write-back is a no-op -/

/-- C10: calling the write-back with an empty data list performs no store
write and raises no error: the store is returned unchanged whatever the
owner argument or the commit outcome (the function returns before opening
the transaction). -/
theorem insert_empty_data_noop (uid : Option Int) (store : List WeatherRow)
    (commitOk : Bool) :
    insert_weather_data_to_db [] uid store commitOk = .ok store := rfl

/-! ### C9 — reads ignore the owner, writes stamp it -/

/-- C9: the weather read path never filters by owner while the write path
always stamps one: for two users with the same location the `/weather/`
response is identical (whatever their ids), yet the background write-back
task, when scheduled, carries `user_id =` the requesting user's id. -/
theorem weather_read_owner_blind (users : List User) (store : List WeatherRow)
    (today : Date) (resp : ProviderResponse) (id1 id2 : Int) (U1 U2 : User)
    (hf1 : users.find? (fun u => u.user_id == id1) = some U1)
    (hf2 : users.find? (fun u => u.user_id == id2) = some U2)
    (hloc : U1.location = U2.location) :
    (get_weather_data users store today resp id1).response =
      (get_weather_data users store today resp id2).response ∧
    (∀ d u, (get_weather_data users store today resp id1).task = some (d, u) →
      u = some id1) := by
  simp only [get_weather_data, hf1, hf2]
  rw [hloc]
  constructor
  · by_cases ht : locationTruthy U2.location
    · by_cases hdb :
          (fetch_weather_data_from_db store today (U2.location.getD "")).isEmpty
      · cases hres : (fetch_weather_data store today (U2.location.getD "") resp).2 with
        | ok entries => simp [ht, hdb, hres, EndpointResult.response]
        | error e => simp [ht, hdb, hres, EndpointResult.response]
      · simp [ht, hdb, EndpointResult.response]
    · simp [ht, EndpointResult.response]
  · intro d u htask
    by_cases ht : locationTruthy U2.location
    · by_cases hdb :
          (fetch_weather_data_from_db store today (U2.location.getD "")).isEmpty
      · cases hres : (fetch_weather_data store today (U2.location.getD "") resp).2 with
        | ok entries =>
          simp [ht, hdb, hres, EndpointResult.task] at htask
          exact htask.2.symm
        | error e => simp [ht, hdb, hres, EndpointResult.task] at htask
      · simp [ht, hdb, EndpointResult.task] at htask
    · simp [ht, EndpointResult.task] at htask

/-- Two users sharing the Austin location, different ids and genders. -/
def twoAustinUsers : List User :=
  [⟨1, some "Austin,US", some "male"⟩, ⟨2, some "Austin,US", none⟩]

/-- C9 witness: the two Austin users receive identical responses on an empty
store; the write-back task of the first request is stamped with user 1. -/
theorem weather_read_owner_blind_witness :
    (get_weather_data twoAustinUsers [] 0 bostonResp 1).response =
      (get_weather_data twoAustinUsers [] 0 bostonResp 2).response ∧
    (∀ d u, (get_weather_data twoAustinUsers [] 0 bostonResp 1).task = some (d, u) →
      u = some 1) :=
  weather_read_owner_blind twoAustinUsers [] 0 bostonResp 1 2
    ⟨1, some "Austin,US", some "male"⟩ ⟨2, some "Austin,US", none⟩
    (by rfl) (by rfl) (by rfl)

/-! ### C5 — failing asynchronous write-back -/

/-- C5 counterexample: a failing commit of the write-back is *not* swallowed:
`insert_weather_data_to_db` rolls back and raises
`HTTPException(500, ...)` — the failure does propagate out of the background
task as an error. -/
theorem writeback_failure_raises :
    insert_weather_data_to_db [sampleEntry 0 "Austin,US"] (some 1) [] false =
      .error ⟨500, "Failed to insert weather data into the database."⟩ [] := rfl

/-- C5 (amended): a failing asynchronous write-back rolls the transaction
back (store unchanged), raises `HTTPException(500, ...)` from the background
task rather than swallowing it, is not retried, and cannot affect the
original response: the response of the full request cycle is independent of
the background commit's outcome. -/
theorem writeback_failure_rollback_response_unaffected
    (data : List WeatherEntry) (uid : Option Int) (store : List WeatherRow)
    (hne : data ≠ []) :
    insert_weather_data_to_db data uid store false =
      .error ⟨500, "Failed to insert weather data into the database."⟩ store ∧
    (∀ (users : List User) (today : Date) (resp : ProviderResponse)
        (id : Int) (commitOk : Bool),
      (run_weather_request users store today resp id commitOk).1 =
        (run_weather_request users store today resp id true).1) := by
  constructor
  · have hne' : data.isEmpty = false := by
      cases data with
      | nil => exact absurd rfl hne
      | cons d rest => rfl
    simp [insert_weather_data_to_db, hne']
  · intro users today resp id commitOk
    rfl

/-- C5 witness: one-entry data on an empty store; the failed write-back
raises and rolls back while any concrete request's response is unchanged. -/
theorem writeback_failure_rollback_response_unaffected_witness :
    insert_weather_data_to_db [sampleEntry 1 "Austin,US"] (some 2) [] false =
      .error ⟨500, "Failed to insert weather data into the database."⟩ [] ∧
    (∀ (users : List User) (today : Date) (resp : ProviderResponse)
        (id : Int) (commitOk : Bool),
      (run_weather_request users [] today resp id commitOk).1 =
        (run_weather_request users [] today resp id true).1) :=
  writeback_failure_rollback_response_unaffected
    [sampleEntry 1 "Austin,US"] (some 2) [] (by simp)

/-! ### C8 — suggestion entrypoint validation -/

/-- C8 (spec-modelled collaborator): when the requested user id does not
resolve to an existing user with a non-empty location, the suggestion
entrypoint fails with a 400 (the `ValueError` surfaced by the endpoint) and
the suggestion store is left unchanged — no record is written. -/
theorem suggest_invalid_user_validation_error (users : List User)
    (suggestions : List SuggestionRecord) (uid : Int)
    (h : ∀ u ∈ users, u.user_id = uid → locationTruthy u.location = false) :
    ∃ msg, suggest_outfit_endpoint users suggestions uid =
      (.error ⟨400, msg⟩, suggestions) := by
  unfold suggest_outfit_endpoint suggest_outfits
  cases hf : users.find? (fun u => u.user_id == uid) with
  | none => exact ⟨"User not found", by simp⟩
  | some u =>
    have h1 := List.mem_of_find?_eq_some hf
    have h2 : u.user_id = uid := by simpa using List.find?_some hf
    have hloc := h u h1 h2
    exact ⟨"User location is not set", by simp [hloc]⟩

/-- C8 witness: user 7 exists but has an empty location; the endpoint
returns a 400 and writes nothing. -/
theorem suggest_invalid_user_validation_error_witness :
    (∀ u ∈ [(⟨7, some "", none⟩ : User)], u.user_id = 7 →
      locationTruthy u.location = false) ∧
    ∃ msg, suggest_outfit_endpoint [⟨7, some "", none⟩] [] 7 =
      (.error ⟨400, msg⟩, []) :=
  ⟨by decide, suggest_invalid_user_validation_error [⟨7, some "", none⟩] [] 7 (by decide)⟩

end LazYdrobe
